import Mathlib

/-!
Shallow embedding of the `rpd` Reverse Polish Notation calculator
(`src/main.rs`).  The core pipeline is a tokenizer (`parse_rpd_token`,
applied to each character of the trimmed input line via
`enumerate().map(...).collect()`, which short-circuits at the first
error) followed by a stack evaluator (`calculate_rpd` / `apply_op`)
over a `VecDeque<u32>` used as a LIFO stack via `push_back`/`pop_back`.

Modelling decisions:
* The `VecDeque<u32>` stack is a `List Nat` whose head is the *back*
  of the deque (the top of the stack): `push_back v` is `v :: s`,
  `pop_back` inspects the head.
* `u32` values are `Nat` together with explicit checks against
  `2 ^ 32`.  Rust's unannotated `+`, `-`, `*` panic on overflow in
  checked (debug-profile) builds, and `/` panics on a zero divisor in
  every build; these runtime panics are modelled by the `panic`
  constructor of `CalcResult` (they are not values of the program's
  error enums).
* `Result<T, E>` is `Except`/`CalcResult`; positions (`usize`) are `Nat`.
* The pipeline receives the already-trimmed line (trimming is done by
  the excluded REPL loop before tokenization).
-/

/-- `OperationType` from `src/main.rs`: the four operator variants. -/
inductive OperationType where
  | Addition
  | Subtraction
  | Multiplication
  | Division
deriving DecidableEq

/-- The `Display` impl for `OperationType`: the canonical glyph. -/
def OperationType.display : OperationType → String
  | OperationType.Addition => "+"
  | OperationType.Subtraction => "-"
  | OperationType.Multiplication => "*"
  | OperationType.Division => "/"

/-- `PolishNotationToken` from `src/main.rs`. -/
inductive PolishNotationToken where
  | Operation (op : OperationType)
  | Number (n : Nat)
  | Space
deriving DecidableEq

/-- `TokenError` from `src/main.rs`. -/
inductive TokenError where
  | InvalidCharacter (index : Nat) (ch : Char)
deriving DecidableEq

/-- The `Display` impl for `TokenError` (1-based position in the text). -/
def TokenError.render : TokenError → String
  | TokenError.InvalidCharacter index ch =>
      "Invalid character at position " ++ toString (index + 1) ++ ", \"" ++
        ch.toString ++ "\""

/-- `CalculationError` from `src/main.rs`. -/
inductive CalculationError where
  | NoNumberFoundForOperation (pos : Nat) (op : OperationType)
  | NoResultAvailable (msg : String)
  | IncompleteExpression (stackSize : Nat)
deriving DecidableEq

/-- The `Display` impl for `CalculationError`.  Note the
`stack_size - 1` arithmetic in the `IncompleteExpression` arm. -/
def CalculationError.render : CalculationError → String
  | CalculationError.NoNumberFoundForOperation pos op =>
      "No number found before the operation " ++ op.display ++
        " at position " ++ toString (pos + 1)
  | CalculationError.NoResultAvailable msg => msg
  | CalculationError.IncompleteExpression stackSize =>
      "Incomplete expression. " ++ toString (stackSize - 1) ++
        " tokens unprocessed."

/-- Outcome of a computation that may fail with a `CalculationError` or
hit a Rust runtime panic (overflow / division by zero). -/
inductive CalcResult (α : Type) where
  | ok (a : α)
  | error (e : CalculationError)
  | panic (msg : String)
deriving DecidableEq

/-- `u32::MAX + 1`. -/
def U32_MOD : Nat := 2 ^ 32

/-- Checked `u32` addition: `x + y` panics on overflow in debug builds. -/
def u32_add (x y : Nat) : CalcResult Nat :=
  if x + y < U32_MOD then CalcResult.ok (x + y)
  else CalcResult.panic "attempt to add with overflow"

/-- Checked `u32` subtraction: `x - y` panics on underflow in debug builds. -/
def u32_sub (x y : Nat) : CalcResult Nat :=
  if y ≤ x then CalcResult.ok (x - y)
  else CalcResult.panic "attempt to subtract with overflow"

/-- Checked `u32` multiplication: `x * y` panics on overflow in debug builds. -/
def u32_mul (x y : Nat) : CalcResult Nat :=
  if x * y < U32_MOD then CalcResult.ok (x * y)
  else CalcResult.panic "attempt to multiply with overflow"

/-- `u32` division: `x / y` panics when `y = 0` (in every build profile). -/
def u32_div (x y : Nat) : CalcResult Nat :=
  if y = 0 then CalcResult.panic "attempt to divide by zero"
  else CalcResult.ok (x / y)

/-- `parse_rpd_token` from `src/main.rs`: classify one character of the
input line, keeping its zero-based position.  The match arms are kept
in source order; `ch.to_digit(10).unwrap()` is `ch.toNat - '0'.toNat`. -/
def parse_rpd_token (index : Nat) (ch : Char) :
    Except TokenError (Nat × PolishNotationToken) :=
  if ch = '+' then
    Except.ok (index, PolishNotationToken.Operation OperationType.Addition)
  else if ch = '-' then
    Except.ok (index, PolishNotationToken.Operation OperationType.Subtraction)
  else if ch = '*' then
    Except.ok (index, PolishNotationToken.Operation OperationType.Multiplication)
  else if ch = 'x' then
    Except.ok (index, PolishNotationToken.Operation OperationType.Multiplication)
  else if ch = 'X' then
    Except.ok (index, PolishNotationToken.Operation OperationType.Multiplication)
  else if ch = '/' then
    Except.ok (index, PolishNotationToken.Operation OperationType.Division)
  else if '0' ≤ ch ∧ ch ≤ '9' then
    Except.ok (index, PolishNotationToken.Number (ch.toNat - '0'.toNat))
  else if ch = ' ' then
    Except.ok (index, PolishNotationToken.Space)
  else
    Except.error (TokenError.InvalidCharacter index ch)

/-- Whether a character is in the recognized set of `parse_rpd_token`
(the complement of its `_ => Err(...)` arm). -/
def validChar (ch : Char) : Bool :=
  ch = '+' ∨ ch = '-' ∨ ch = '*' ∨ ch = 'x' ∨ ch = 'X' ∨ ch = '/' ∨
    ('0' ≤ ch ∧ ch ≤ '9') ∨ ch = ' '

/-- The `input.trim().chars().enumerate().map(parse_rpd_token).collect()`
pipeline stage of `main`: classify every character with its index,
short-circuiting at the first `Err` (the semantics of `collect` into
`Result<Vec<_>, _>`). -/
def tokenizeFrom : Nat → List Char → Except TokenError (List (Nat × PolishNotationToken))
  | _, [] => Except.ok []
  | i, c :: cs =>
    match parse_rpd_token i c with
    | Except.error e => Except.error e
    | Except.ok t =>
      match tokenizeFrom (i + 1) cs with
      | Except.error e => Except.error e
      | Except.ok ts => Except.ok (t :: ts)

/-- Tokenize a whole (already trimmed) line, positions starting at 0. -/
def tokenize (line : List Char) : Except TokenError (List (Nat × PolishNotationToken)) :=
  tokenizeFrom 0 line

/-- `apply_op` from `src/main.rs`.  Each arm pops `y` (back of the
deque, i.e. head of the list) then `x`, failing with
`NoNumberFoundForOperation(op_pos, op_type)` if a pop finds the stack
empty, and pushes the `u32` result of `x OP y` back. -/
def apply_op (op_pos : Nat) (op_type : OperationType) (stack : List Nat) :
    CalcResult (List Nat) :=
  match op_type with
  | OperationType.Addition =>
    match stack with
    | [] => CalcResult.error (CalculationError.NoNumberFoundForOperation op_pos op_type)
    | [_] => CalcResult.error (CalculationError.NoNumberFoundForOperation op_pos op_type)
    | y :: x :: rest =>
      match u32_add x y with
      | CalcResult.ok v => CalcResult.ok (v :: rest)
      | CalcResult.error e => CalcResult.error e
      | CalcResult.panic m => CalcResult.panic m
  | OperationType.Subtraction =>
    match stack with
    | [] => CalcResult.error (CalculationError.NoNumberFoundForOperation op_pos op_type)
    | [_] => CalcResult.error (CalculationError.NoNumberFoundForOperation op_pos op_type)
    | y :: x :: rest =>
      match u32_sub x y with
      | CalcResult.ok v => CalcResult.ok (v :: rest)
      | CalcResult.error e => CalcResult.error e
      | CalcResult.panic m => CalcResult.panic m
  | OperationType.Multiplication =>
    match stack with
    | [] => CalcResult.error (CalculationError.NoNumberFoundForOperation op_pos op_type)
    | [_] => CalcResult.error (CalculationError.NoNumberFoundForOperation op_pos op_type)
    | y :: x :: rest =>
      match u32_mul x y with
      | CalcResult.ok v => CalcResult.ok (v :: rest)
      | CalcResult.error e => CalcResult.error e
      | CalcResult.panic m => CalcResult.panic m
  | OperationType.Division =>
    match stack with
    | [] => CalcResult.error (CalculationError.NoNumberFoundForOperation op_pos op_type)
    | [_] => CalcResult.error (CalculationError.NoNumberFoundForOperation op_pos op_type)
    | y :: x :: rest =>
      match u32_div x y with
      | CalcResult.ok v => CalcResult.ok (v :: rest)
      | CalcResult.error e => CalcResult.error e
      | CalcResult.panic m => CalcResult.panic m

/-- The `for token in tokens` loop body of `calculate_rpd`: operators go
through `apply_op`, numbers are pushed (`push_back`), spaces `continue`;
a `?` error aborts the loop. -/
def calcFold : List (Nat × PolishNotationToken) → List Nat → CalcResult (List Nat)
  | [], stack => CalcResult.ok stack
  | (pos, PolishNotationToken.Operation op) :: rest, stack =>
    match apply_op pos op stack with
    | CalcResult.ok s => calcFold rest s
    | CalcResult.error e => CalcResult.error e
    | CalcResult.panic m => CalcResult.panic m
  | (_, PolishNotationToken.Number num) :: rest, stack => calcFold rest (num :: stack)
  | (_, PolishNotationToken.Space) :: rest, stack => calcFold rest stack

/-- `calculate_rpd` from `src/main.rs`: run the loop on an empty stack;
then `stack.len() > 1` yields `IncompleteExpression(stack.len())`, and
otherwise `pop_back().ok_or(NoResultAvailable(...))`. -/
def calculate_rpd (tokens : List (Nat × PolishNotationToken)) : CalcResult Nat :=
  match calcFold tokens [] with
  | CalcResult.error e => CalcResult.error e
  | CalcResult.panic m => CalcResult.panic m
  | CalcResult.ok stack =>
    if stack.length > 1 then
      CalcResult.error (CalculationError.IncompleteExpression stack.length)
    else
      match stack with
      | [] => CalcResult.error (CalculationError.NoResultAvailable "No result can be generated.")
      | v :: _ => CalcResult.ok v

/-- Overall outcome of one line through the pipeline in `main`. -/
inductive EvalOutcome where
  | ok (n : Nat)
  | tokenErr (e : TokenError)
  | calcErr (e : CalculationError)
  | panic (msg : String)
deriving DecidableEq

/-- The per-line pipeline of `main`: tokenize the (trimmed) line, then
evaluate; each stage short-circuits. -/
def run_pipeline (line : List Char) : EvalOutcome :=
  match tokenize line with
  | Except.error e => EvalOutcome.tokenErr e
  | Except.ok tokens =>
    match calculate_rpd tokens with
    | CalcResult.ok v => EvalOutcome.ok v
    | CalcResult.error e => EvalOutcome.calcErr e
    | CalcResult.panic m => EvalOutcome.panic m

/-- `run_pipeline` on the characters of a string literal. -/
def run_line (s : String) : EvalOutcome :=
  run_pipeline s.data

/-- A sequence of independent pipeline invocations, as the REPL loop in
`main` performs them: one outcome per line, in order. -/
def run_session (lines : List (List Char)) : List EvalOutcome :=
  lines.map run_pipeline

/-! ### Helper lemmas shared by the claim theorems -/

/-- A character outside the recognized set hits the final `Err` arm of
`parse_rpd_token`, carrying its index and itself. -/
theorem parse_rpd_token_invalid (i : Nat) (c : Char) (h : validChar c = false) :
    parse_rpd_token i c = Except.error (TokenError.InvalidCharacter i c) := by
  have h' : ¬(c = '+' ∨ c = '-' ∨ c = '*' ∨ c = 'x' ∨ c = 'X' ∨ c = '/' ∨
      ('0' ≤ c ∧ c ≤ '9') ∨ c = ' ') := by simpa [validChar] using h
  push_neg at h'
  obtain ⟨h1, h2, h3, h4, h5, h6, h7, h8⟩ := h'
  have h7' : ¬('0' ≤ c ∧ c ≤ '9') := fun hc => absurd hc.2 (not_le.mpr (h7 hc.1))
  simp [parse_rpd_token, h1, h2, h3, h4, h5, h6, h7', h8]

/-- A character in the recognized set is classified successfully. -/
theorem parse_rpd_token_valid (i : Nat) (c : Char) (h : validChar c = true) :
    ∃ tok : Nat × PolishNotationToken, parse_rpd_token i c = Except.ok tok := by
  have h' : c = '+' ∨ c = '-' ∨ c = '*' ∨ c = 'x' ∨ c = 'X' ∨ c = '/' ∨
      ('0' ≤ c ∧ c ≤ '9') ∨ c = ' ' := by simpa [validChar] using h
  rcases h' with h1 | h1 | h1 | h1 | h1 | h1 | h1 | h1
  · exact ⟨_, by subst h1; rfl⟩
  · exact ⟨_, by subst h1; rfl⟩
  · exact ⟨_, by subst h1; rfl⟩
  · exact ⟨_, by subst h1; rfl⟩
  · exact ⟨_, by subst h1; rfl⟩
  · exact ⟨_, by subst h1; rfl⟩
  · have n1 : ¬(c = '+') := fun hc => absurd h1 (by subst hc; decide)
    have n2 : ¬(c = '-') := fun hc => absurd h1 (by subst hc; decide)
    have n3 : ¬(c = '*') := fun hc => absurd h1 (by subst hc; decide)
    have n4 : ¬(c = 'x') := fun hc => absurd h1 (by subst hc; decide)
    have n5 : ¬(c = 'X') := fun hc => absurd h1 (by subst hc; decide)
    have n6 : ¬(c = '/') := fun hc => absurd h1 (by subst hc; decide)
    refine ⟨(i, PolishNotationToken.Number (c.toNat - Char.toNat '0')), ?_⟩
    simp [parse_rpd_token, n1, n2, n3, n4, n5, n6, h1]
  · exact ⟨_, by subst h1; rfl⟩

/-- Tokenization short-circuits: an invalid character after any run of
valid characters aborts the whole line with its own position, whatever
the rest of the line holds. -/
theorem tokenizeFrom_invalid (pre : List Char) (c : Char) (rest : List Char) (i : Nat)
    (hpre : ∀ d ∈ pre, validChar d = true) (hc : validChar c = false) :
    tokenizeFrom i (pre ++ c :: rest) =
      Except.error (TokenError.InvalidCharacter (i + pre.length) c) := by
  induction pre generalizing i with
  | nil =>
    simp only [List.nil_append, List.length_nil, Nat.add_zero]
    simp [tokenizeFrom, parse_rpd_token_invalid i c hc]
  | cons d ds ih =>
    have hd : validChar d = true := hpre d (by simp)
    obtain ⟨tok, htok⟩ := parse_rpd_token_valid i d hd
    have harith : i + 1 + ds.length = i + (d :: ds).length := by
      simp [List.length_cons]; omega
    rw [List.cons_append]
    simp only [tokenizeFrom, htok,
      ih (i + 1) (fun e he => hpre e (by simp [he])), harith]

/-- A line of recognized characters tokenizes successfully. -/
theorem tokenizeFrom_valid (line : List Char) (i : Nat)
    (h : ∀ d ∈ line, validChar d = true) :
    ∃ ts, tokenizeFrom i line = Except.ok ts := by
  induction line generalizing i with
  | nil => exact ⟨[], rfl⟩
  | cons c cs ih =>
    obtain ⟨tok, htok⟩ := parse_rpd_token_valid i c (h c (by simp))
    obtain ⟨ts, hts⟩ := ih (i + 1) (fun d hd => h d (by simp [hd]))
    exact ⟨tok :: ts, by simp [tokenizeFrom, htok, hts]⟩

/-- Stack underflow: every `apply_op` arm returns
`NoNumberFoundForOperation` when fewer than two values are stacked. -/
theorem apply_op_short (pos : Nat) (op : OperationType) (s : List Nat)
    (h : s.length < 2) :
    apply_op pos op s =
      CalcResult.error (CalculationError.NoNumberFoundForOperation pos op) := by
  match s with
  | [] => cases op <;> rfl
  | [_] => cases op <;> rfl
  | _ :: _ :: _ => exact absurd h (by simp)

/-- Checked addition yields `ok` or `panic`, never a structured error. -/
theorem u32_add_not_error (x y : Nat) (e : CalculationError) :
    u32_add x y ≠ CalcResult.error e := by
  unfold u32_add; split <;> simp

/-- Checked subtraction yields `ok` or `panic`, never a structured error. -/
theorem u32_sub_not_error (x y : Nat) (e : CalculationError) :
    u32_sub x y ≠ CalcResult.error e := by
  unfold u32_sub; split <;> simp

/-- Checked multiplication yields `ok` or `panic`, never a structured error. -/
theorem u32_mul_not_error (x y : Nat) (e : CalculationError) :
    u32_mul x y ≠ CalcResult.error e := by
  unfold u32_mul; split <;> simp

/-- Division yields `ok` or `panic`, never a structured error. -/
theorem u32_div_not_error (x y : Nat) (e : CalculationError) :
    u32_div x y ≠ CalcResult.error e := by
  unfold u32_div; split <;> simp

/-- The only structured error `apply_op` can produce is
`NoNumberFoundForOperation` at its own position and operator (the
arithmetic helpers yield `ok` or `panic`, never `error`). -/
theorem apply_op_error_imp (pos : Nat) (op : OperationType) (s : List Nat)
    (e : CalculationError) (h : apply_op pos op s = CalcResult.error e) :
    e = CalculationError.NoNumberFoundForOperation pos op := by
  match s with
  | [] =>
    cases op <;> exact (CalcResult.error.inj h).symm
  | [_] =>
    cases op <;> exact (CalcResult.error.inj h).symm
  | y :: x :: r =>
    cases op with
    | Addition =>
      simp only [apply_op] at h
      cases hu : u32_add x y with
      | ok v => rw [hu] at h; simp at h
      | error e' => exact absurd hu (u32_add_not_error x y e')
      | panic m => rw [hu] at h; simp at h
    | Subtraction =>
      simp only [apply_op] at h
      cases hu : u32_sub x y with
      | ok v => rw [hu] at h; simp at h
      | error e' => exact absurd hu (u32_sub_not_error x y e')
      | panic m => rw [hu] at h; simp at h
    | Multiplication =>
      simp only [apply_op] at h
      cases hu : u32_mul x y with
      | ok v => rw [hu] at h; simp at h
      | error e' => exact absurd hu (u32_mul_not_error x y e')
      | panic m => rw [hu] at h; simp at h
    | Division =>
      simp only [apply_op] at h
      cases hu : u32_div x y with
      | ok v => rw [hu] at h; simp at h
      | error e' => exact absurd hu (u32_div_not_error x y e')
      | panic m => rw [hu] at h; simp at h

/-- The evaluation loop distributes over list append, short-circuiting
on the first error or panic. -/
theorem calcFold_append (ts1 ts2 : List (Nat × PolishNotationToken)) (st : List Nat) :
    calcFold (ts1 ++ ts2) st =
      match calcFold ts1 st with
      | CalcResult.ok s => calcFold ts2 s
      | CalcResult.error e => CalcResult.error e
      | CalcResult.panic m => CalcResult.panic m := by
  induction ts1 generalizing st with
  | nil => rfl
  | cons t ts ih =>
    obtain ⟨pos, tk⟩ := t
    cases tk with
    | Operation op =>
      simp only [List.cons_append, calcFold]
      cases apply_op pos op st with
      | ok s => exact ih s
      | error e => rfl
      | panic m => rfl
    | Number num => simpa only [List.cons_append, calcFold] using ih (num :: st)
    | Space => simpa only [List.cons_append, calcFold] using ih st

/-- Errors escaping the evaluation loop are always stack-underflow
errors: the loop itself never constructs any other error variant. -/
theorem calcFold_error_shape (ts : List (Nat × PolishNotationToken)) (st : List Nat)
    (e : CalculationError) (h : calcFold ts st = CalcResult.error e) :
    ∃ p o, e = CalculationError.NoNumberFoundForOperation p o := by
  induction ts generalizing st with
  | nil => simp [calcFold] at h
  | cons t rest ih =>
    obtain ⟨pos, tk⟩ := t
    cases tk with
    | Operation op =>
      simp only [calcFold] at h
      cases ha : apply_op pos op st with
      | ok s => rw [ha] at h; exact ih s h
      | error e' =>
        rw [ha] at h
        simp only [] at h
        cases h
        exact ⟨pos, op, apply_op_error_imp pos op st e ha⟩
      | panic m => rw [ha] at h; simp at h
    | Number num => simp only [calcFold] at h; exact ih (num :: st) h
    | Space => simp only [calcFold] at h; exact ih st h

/-! ### Claim theorems -/

/-- C1: an operator applied to a stack with at least two values pops
`y` (top) then `x` and pushes the single value `x OP y` (whenever the
`u32` operation is defined), so `"5 2 -"` evaluates to `3` — not
`4294967293` or the `y - x` value — and `"9 3 /"` evaluates to `3`. -/
theorem C1_operand_order :
    (∀ (pos x y : Nat) (rest : List Nat),
      (x + y < U32_MOD →
        apply_op pos OperationType.Addition (y :: x :: rest) =
          CalcResult.ok ((x + y) :: rest)) ∧
      (y ≤ x →
        apply_op pos OperationType.Subtraction (y :: x :: rest) =
          CalcResult.ok ((x - y) :: rest)) ∧
      (x * y < U32_MOD →
        apply_op pos OperationType.Multiplication (y :: x :: rest) =
          CalcResult.ok ((x * y) :: rest)) ∧
      (y ≠ 0 →
        apply_op pos OperationType.Division (y :: x :: rest) =
          CalcResult.ok ((x / y) :: rest))) ∧
    run_line "5 2 -" = EvalOutcome.ok 3 ∧
    run_line "5 2 -" ≠ EvalOutcome.ok 4294967293 ∧
    run_line "9 3 /" = EvalOutcome.ok 3 := by
  refine ⟨?_, by decide, by decide, by decide⟩
  intro pos x y rest
  refine ⟨fun h => ?_, fun h => ?_, fun h => ?_, fun h => ?_⟩
  · simp [apply_op, u32_add, h]
  · simp [apply_op, u32_sub, h]
  · simp [apply_op, u32_mul, h]
  · simp [apply_op, u32_div, h]

/-- C1 witness: the operand-order statement applied at `x = 5, y = 2`
(subtraction) and `x = 9, y = 3` (division). -/
theorem C1_operand_order_witness :
    apply_op 0 OperationType.Subtraction [2, 5] = CalcResult.ok [3] ∧
    apply_op 0 OperationType.Division [3, 9] = CalcResult.ok [3] := by
  constructor
  · exact (C1_operand_order.1 0 5 2 []).2.1 (by decide)
  · exact (C1_operand_order.1 0 9 3 []).2.2.2 (by decide)

/-- C4 counterexample: the code has no dedicated arithmetic error —
`"5 0 /"` hits Rust's division-by-zero panic and `"0 1 -"` hits the
checked-build subtraction-overflow panic; neither is surfaced as a
structured error value. -/
theorem C4_counterexample :
    run_line "5 0 /" = EvalOutcome.panic "attempt to divide by zero" ∧
    run_line "0 1 -" = EvalOutcome.panic "attempt to subtract with overflow" := by
  exact ⟨by decide, by decide⟩

/-- C4 (amended): the subtraction and division branches apply native
unsigned arithmetic with no dedicated error: a zero divisor panics (in
every build profile), subtraction underflow panics in checked builds,
and the division branch with two operands never produces any
structured `CalculationError` value. -/
theorem C4_arithmetic_faults :
    (∀ (pos x : Nat) (rest : List Nat),
      apply_op pos OperationType.Division (0 :: x :: rest) =
        CalcResult.panic "attempt to divide by zero") ∧
    (∀ (pos x y : Nat) (rest : List Nat), x < y →
      apply_op pos OperationType.Subtraction (y :: x :: rest) =
        CalcResult.panic "attempt to subtract with overflow") ∧
    (∀ (e : CalculationError) (pos x y : Nat) (rest : List Nat),
      apply_op pos OperationType.Division (y :: x :: rest) ≠ CalcResult.error e) := by
  refine ⟨?_, ?_, ?_⟩
  · intro pos x rest
    simp [apply_op, u32_div]
  · intro pos x y rest h
    simp [apply_op, u32_sub, Nat.not_le.mpr h]
  · intro e pos x y rest h
    simp only [apply_op] at h
    cases hu : u32_div x y with
    | ok v => rw [hu] at h; simp at h
    | error e' => exact absurd hu (u32_div_not_error x y e')
    | panic m => rw [hu] at h; simp at h

/-- C4 witness: the amended statement applied at the concrete faulting
operands of `"0 1 -"` (subtraction underflow at `x = 0, y = 1`). -/
theorem C4_arithmetic_faults_witness :
    apply_op 2 OperationType.Subtraction [1, 0] =
      CalcResult.panic "attempt to subtract with overflow" :=
  C4_arithmetic_faults.2.1 2 0 1 [] (by decide)

/-- C7: the characters `*`, `x` and `X` all tokenize to the same
Multiplication operator, the three spellings of `3 4 <mul>` all
evaluate to `12`, and the canonical display glyphs are `*`, `+`, `-`,
`/` regardless of the input character. -/
theorem C7_mul_glyphs :
    (∀ i : Nat,
      parse_rpd_token i '*' =
        Except.ok (i, PolishNotationToken.Operation OperationType.Multiplication) ∧
      parse_rpd_token i 'x' =
        Except.ok (i, PolishNotationToken.Operation OperationType.Multiplication) ∧
      parse_rpd_token i 'X' =
        Except.ok (i, PolishNotationToken.Operation OperationType.Multiplication)) ∧
    run_line "3 4 x" = EvalOutcome.ok 12 ∧
    run_line "3 4 X" = EvalOutcome.ok 12 ∧
    run_line "3 4 *" = EvalOutcome.ok 12 ∧
    OperationType.Multiplication.display = "*" ∧
    OperationType.Addition.display = "+" ∧
    OperationType.Subtraction.display = "-" ∧
    OperationType.Division.display = "/" := by
  exact ⟨fun i => ⟨rfl, rfl, rfl⟩, by decide, by decide, by decide, rfl, rfl, rfl, rfl⟩

/-- C8: every single ASCII digit `d` as the whole line evaluates to
`d`, and the four basic operator examples hold. -/
theorem C8_basic_examples :
    (∀ d : Fin 10, run_pipeline [Char.ofNat (48 + d.val)] = EvalOutcome.ok d.val) ∧
    run_line "3 4 +" = EvalOutcome.ok 7 ∧
    run_line "5 1 -" = EvalOutcome.ok 4 ∧
    run_line "6 2 *" = EvalOutcome.ok 12 ∧
    run_line "8 2 /" = EvalOutcome.ok 4 := by
  exact ⟨by decide, by decide, by decide, by decide, by decide⟩

/-- C9: the pipeline is a pure function of the input line — running it
twice on the same line yields the same outcome, and in a sequence of
invocations each line's outcome is independent of the lines processed
before it. -/
theorem C9_deterministic :
    (∀ line : List Char,
      (run_pipeline line, run_pipeline line).1 =
        (run_pipeline line, run_pipeline line).2) ∧
    (∀ (prev : List (List Char)) (line : List Char),
      run_session (prev ++ [line]) = run_session prev ++ [run_pipeline line]) := by
  refine ⟨fun line => rfl, fun prev line => ?_⟩
  simp [run_session]

/-- C2: once all tokens are consumed the outcome is decided by the
final stack size — 0 fails with `NoResultAvailable` and its fixed
message (as on empty or all-space input), 1 succeeds with that value,
more than 1 fails with `IncompleteExpression` of the stack size. -/
theorem C2_final_stack_trichotomy :
    (∀ (tokens : List (Nat × PolishNotationToken)) (s : List Nat),
      calcFold tokens [] = CalcResult.ok s →
        (s = [] →
          calculate_rpd tokens =
            CalcResult.error
              (CalculationError.NoResultAvailable "No result can be generated.")) ∧
        (∀ v, s = [v] → calculate_rpd tokens = CalcResult.ok v) ∧
        (1 < s.length →
          calculate_rpd tokens =
            CalcResult.error (CalculationError.IncompleteExpression s.length))) ∧
    run_line "" =
      EvalOutcome.calcErr
        (CalculationError.NoResultAvailable "No result can be generated.") ∧
    run_line "  " =
      EvalOutcome.calcErr
        (CalculationError.NoResultAvailable "No result can be generated.") := by
  refine ⟨?_, by decide, by decide⟩
  intro tokens s hf
  refine ⟨?_, ?_, ?_⟩
  · rintro rfl
    unfold calculate_rpd
    rw [hf]
    rfl
  · rintro v rfl
    unfold calculate_rpd
    rw [hf]
    rfl
  · intro hl
    unfold calculate_rpd
    rw [hf]
    simp [hl]

/-- C2 witness: the trichotomy applied to the empty token list, whose
final stack is empty. -/
theorem C2_final_stack_trichotomy_witness :
    calculate_rpd [] =
      CalcResult.error
        (CalculationError.NoResultAvailable "No result can be generated.") :=
  (C2_final_stack_trichotomy.1 [] [] rfl).1 rfl

/-- C3: an operator reached while the stack holds fewer than two
values makes the whole evaluation fail immediately with
`NoNumberFoundForOperation` carrying that operator's original position
and identity; in particular `"+"` fails at position 0 for Addition. -/
theorem C3_stack_underflow :
    (∀ (ts1 ts2 : List (Nat × PolishNotationToken)) (pos : Nat)
        (op : OperationType) (s : List Nat),
      calcFold ts1 [] = CalcResult.ok s → s.length < 2 →
      calculate_rpd (ts1 ++ (pos, PolishNotationToken.Operation op) :: ts2) =
        CalcResult.error (CalculationError.NoNumberFoundForOperation pos op)) ∧
    run_line "+" =
      EvalOutcome.calcErr
        (CalculationError.NoNumberFoundForOperation 0 OperationType.Addition) := by
  refine ⟨?_, by decide⟩
  intro ts1 ts2 pos op s hf hs
  unfold calculate_rpd
  rw [calcFold_append, hf]
  simp [calcFold, apply_op_short pos op s hs]

/-- C3 witness: the underflow statement applied to the lone-operator
token list produced by `"+"`. -/
theorem C3_stack_underflow_witness :
    calculate_rpd [(0, PolishNotationToken.Operation OperationType.Addition)] =
      CalcResult.error
        (CalculationError.NoNumberFoundForOperation 0 OperationType.Addition) := by
  have h := C3_stack_underflow.1 [] [] 0 OperationType.Addition [] rfl (by decide)
  simpa using h

/-- C5: the tokenizer classifies characters independently in order and
aborts the whole line at the first unrecognized character with
`InvalidCharacter` carrying its zero-based position and the character,
however the rest of the line looks; a fully recognized line yields a
token list.  `"3 4 $"` fails with `InvalidCharacter(4, <dollar>)`,
rendered with the 1-based position 5. -/
theorem C5_tokenizer_first_invalid :
    (∀ (pre : List Char) (c : Char) (rest : List Char),
      (∀ d ∈ pre, validChar d = true) → validChar c = false →
      tokenize (pre ++ c :: rest) =
        Except.error (TokenError.InvalidCharacter pre.length c)) ∧
    (∀ line : List Char, (∀ d ∈ line, validChar d = true) →
      ∃ ts, tokenize line = Except.ok ts) ∧
    tokenize ("3 4 $".data) = Except.error (TokenError.InvalidCharacter 4 ('$')) ∧
    (TokenError.InvalidCharacter 4 ('$')).render =
      "Invalid character at position 5, \"$\"" := by
  refine ⟨?_, ?_, by rfl, by decide⟩
  · intro pre c rest hpre hc
    have h := tokenizeFrom_invalid pre c rest 0 hpre hc
    simpa [tokenize] using h
  · intro line h
    exact tokenizeFrom_valid line 0 h

/-- C5 witness: the short-circuit statement applied to the characters
of `"3 4 $"` split around its invalid character. -/
theorem C5_tokenizer_first_invalid_witness :
    tokenize (['3', ' ', '4', ' '] ++ ['$']) =
      Except.error (TokenError.InvalidCharacter 4 ('$')) := by
  have h := C5_tokenizer_first_invalid.1 ['3', ' ', '4', ' '] '$' []
    (by decide) (by decide)
  simpa using h

/-- C6: a final stack of size `n > 1` fails with
`IncompleteExpression(n)` whose message reports `n - 1` tokens
unprocessed; `"1 2 3 +"` leaves the stack `[5, 1]` (top first, the set
of values 1 and 5) of size 2 and reports "1 tokens unprocessed." -/
theorem C6_incomplete_expression :
    (∀ (tokens : List (Nat × PolishNotationToken)) (s : List Nat),
      calcFold tokens [] = CalcResult.ok s → 1 < s.length →
      calculate_rpd tokens =
          CalcResult.error (CalculationError.IncompleteExpression s.length) ∧
        (CalculationError.IncompleteExpression s.length).render =
          "Incomplete expression. " ++ toString (s.length - 1) ++
            " tokens unprocessed.") ∧
    tokenize ("1 2 3 +".data) =
      Except.ok [(0, PolishNotationToken.Number 1), (1, PolishNotationToken.Space),
        (2, PolishNotationToken.Number 2), (3, PolishNotationToken.Space),
        (4, PolishNotationToken.Number 3), (5, PolishNotationToken.Space),
        (6, PolishNotationToken.Operation OperationType.Addition)] ∧
    calcFold [(0, PolishNotationToken.Number 1), (1, PolishNotationToken.Space),
        (2, PolishNotationToken.Number 2), (3, PolishNotationToken.Space),
        (4, PolishNotationToken.Number 3), (5, PolishNotationToken.Space),
        (6, PolishNotationToken.Operation OperationType.Addition)] [] =
      CalcResult.ok [5, 1] ∧
    run_line "1 2 3 +" =
      EvalOutcome.calcErr (CalculationError.IncompleteExpression 2) ∧
    (CalculationError.IncompleteExpression 2).render =
      "Incomplete expression. 1 tokens unprocessed." := by
  refine ⟨?_, by rfl, by decide, by decide, by decide⟩
  intro tokens s hf hl
  refine ⟨?_, rfl⟩
  unfold calculate_rpd
  rw [hf]
  simp [hl]

/-- C6 witness: the statement applied to the token list of
`"1 2 3 +"`, whose final stack is `[5, 1]`. -/
theorem C6_incomplete_expression_witness :
    calculate_rpd [(0, PolishNotationToken.Number 1), (1, PolishNotationToken.Space),
        (2, PolishNotationToken.Number 2), (3, PolishNotationToken.Space),
        (4, PolishNotationToken.Number 3), (5, PolishNotationToken.Space),
        (6, PolishNotationToken.Operation OperationType.Addition)] =
      CalcResult.error (CalculationError.IncompleteExpression 2) := by
  have h := C6_incomplete_expression.1 [(0, PolishNotationToken.Number 1),
    (1, PolishNotationToken.Space), (2, PolishNotationToken.Number 2),
    (3, PolishNotationToken.Space), (4, PolishNotationToken.Number 3),
    (5, PolishNotationToken.Space), (6, PolishNotationToken.Operation OperationType.Addition)]
    [5, 1] (by decide) (by decide)
  simpa using h.1

/-- C10: whenever `calculate_rpd` returns `IncompleteExpression(n)`,
the payload `n` is at least 2, so the unsigned `n - 1` in the message
never underflows and the reported count is at least 1. -/
theorem C10_payload_at_least_two :
    ∀ (tokens : List (Nat × PolishNotationToken)) (n : Nat),
      calculate_rpd tokens =
          CalcResult.error (CalculationError.IncompleteExpression n) →
      2 ≤ n ∧ 1 ≤ n - 1 := by
  intro tokens n h
  unfold calculate_rpd at h
  cases hf : calcFold tokens [] with
  | error e =>
    rw [hf] at h
    simp at h
    obtain ⟨p, o, he⟩ := calcFold_error_shape tokens [] e hf
    rw [h] at he
    simp at he
  | panic m =>
    rw [hf] at h
    simp at h
  | ok stack =>
    rw [hf] at h
    simp only at h
    split at h
    · rename_i hl
      have : stack.length = n := by
        have := CalcResult.error.inj h
        exact CalculationError.IncompleteExpression.inj this
      omega
    · rename_i hl
      match stack with
      | [] => simp at h
      | v :: rest => simp at h

/-- C10 witness: the payload bound applied to the token list of
`"1 2 3 +"`, which returns `IncompleteExpression(2)`. -/
theorem C10_payload_at_least_two_witness :
    calculate_rpd [(0, PolishNotationToken.Number 1), (1, PolishNotationToken.Space),
        (2, PolishNotationToken.Number 2), (3, PolishNotationToken.Space),
        (4, PolishNotationToken.Number 3), (5, PolishNotationToken.Space),
        (6, PolishNotationToken.Operation OperationType.Addition)] =
      CalcResult.error (CalculationError.IncompleteExpression 2) ∧
    (2 ≤ 2 ∧ 1 ≤ 2 - 1) :=
  ⟨by decide, C10_payload_at_least_two [(0, PolishNotationToken.Number 1),
    (1, PolishNotationToken.Space), (2, PolishNotationToken.Number 2),
    (3, PolishNotationToken.Space), (4, PolishNotationToken.Number 3),
    (5, PolishNotationToken.Space), (6, PolishNotationToken.Operation OperationType.Addition)]
    2 (by decide)⟩
